import Mathlib

/-!
Verification of the DiseaseModeling repository simulation engine.

The development shallowly embeds the TypeScript core (SIR model variants,
the RK4 integrator, the validation layer and the simulation controller)
into Lean.  Two numeric layers are used:

* `Exact` — machine numbers are modelled as exact rationals `ℚ`.  This layer
  carries the mathematical claims (derivative formulas, conservation, solver
  structure), for which rounding is irrelevant.
* `JsNum` — an inductive type with finite rationals, `+Infinity`, `-Infinity`
  and `NaN`, with arithmetic following the JavaScript (IEEE-754) rules for
  the special values; finite arithmetic is exact (overflow and rounding are
  not modelled).  This layer carries the claims about validation and
  error handling, which hinge on the special values.
-/

/-- A JavaScript number: a finite (exact) rational, an infinity, or NaN.
Rounding and overflow of IEEE doubles are not modelled; the special-value
propagation rules follow ECMAScript arithmetic. -/
inductive JsNum where
| fin (q : ℚ)
| posInf
| negInf
| nan
deriving DecidableEq, Repr

namespace JsNum

/-- `Number.isNaN` / the `isNaN` test. -/
def isNaN : JsNum → Bool
| nan => true
| _ => false

/-- JavaScript `isFinite`. -/
def isFinite : JsNum → Bool
| fin _ => true
| _ => false

/-- JavaScript addition on numbers. -/
def add : JsNum → JsNum → JsNum
| nan, _ => nan
| _, nan => nan
| posInf, negInf => nan
| negInf, posInf => nan
| posInf, _ => posInf
| _, posInf => posInf
| negInf, _ => negInf
| _, negInf => negInf
| fin a, fin b => fin (a + b)

/-- JavaScript unary minus. -/
def neg : JsNum → JsNum
| nan => nan
| posInf => negInf
| negInf => posInf
| fin a => fin (-a)

/-- JavaScript subtraction. -/
def sub (a b : JsNum) : JsNum := add a (neg b)

/-- JavaScript multiplication on numbers. -/
def mul : JsNum → JsNum → JsNum
| nan, _ => nan
| _, nan => nan
| fin a, fin b => fin (a * b)
| fin a, posInf => if a = 0 then nan else if 0 < a then posInf else negInf
| fin a, negInf => if a = 0 then nan else if 0 < a then negInf else posInf
| posInf, fin b => if b = 0 then nan else if 0 < b then posInf else negInf
| negInf, fin b => if b = 0 then nan else if 0 < b then negInf else posInf
| posInf, posInf => posInf
| posInf, negInf => negInf
| negInf, posInf => negInf
| negInf, negInf => posInf

/-- JavaScript division on numbers (unsigned zero: `x/0` for `x>0` is
`+Infinity`, `0/0` is `NaN`). -/
def div : JsNum → JsNum → JsNum
| nan, _ => nan
| _, nan => nan
| posInf, posInf => nan
| posInf, negInf => nan
| negInf, posInf => nan
| negInf, negInf => nan
| fin _, posInf => fin 0
| fin _, negInf => fin 0
| posInf, fin b => if b < 0 then negInf else posInf
| negInf, fin b => if b < 0 then posInf else negInf
| fin a, fin b =>
  if b = 0 then (if a = 0 then nan else if 0 < a then posInf else negInf)
  else fin (a / b)

/-- JavaScript strict `<` comparison (false whenever an operand is NaN). -/
def lt : JsNum → JsNum → Bool
| nan, _ => false
| _, nan => false
| fin a, fin b => decide (a < b)
| fin _, posInf => true
| fin _, negInf => false
| posInf, _ => false
| negInf, negInf => false
| negInf, _ => true

end JsNum

namespace Exact

/-- `ModelState` from `src/models/SIRModel.ts`: the (S, I, R) compartments at
one instant, over exact rationals. -/
structure ModelState where
S : ℚ
I : ℚ
R : ℚ
deriving DecidableEq, Repr

/-- `ModelParameters` from `src/models/SIRModel.ts`: `beta` and `gamma` are
always present; `mu`, `alpha`, `N` are optional fields. -/
structure ModelParameters where
beta : ℚ
gamma : ℚ
mu : Option ℚ := none
alpha : Option ℚ := none
N : Option ℚ := none
deriving DecidableEq, Repr

namespace BasicSIR

/-- `BasicSIR.computeDerivatives`: `dS = -beta*S*I`, `dI = beta*S*I - gamma*I`,
`dR = gamma*I`.  The source body reads only `beta`, `gamma`, `S`, `I` and
never throws, so it is a total function here. -/
def computeDerivatives (state : ModelState) (params : ModelParameters) : ModelState :=
⟨-params.beta * state.S * state.I,
 params.beta * state.S * state.I - params.gamma * state.I,
 params.gamma * state.I⟩

/-- `BasicSIR.calculateR0`: `beta / gamma` (the source performs the plain
division with no guard). -/
def calculateR0 (params : ModelParameters) : ℚ :=
params.beta / params.gamma

end BasicSIR

namespace DiseaseDeaths

/-- `DiseaseDeaths.computeDerivatives` (current version, with births
proportional to the living population `P = S+I+R`, matching the repository
README, doc comments and tests): throws when `mu`, `alpha` or `N` is absent;
otherwise
`dS = mu*P - beta*S*I/N - mu*S`,
`dI = beta*S*I/N - gamma*I - mu*I - alpha*I`,
`dR = gamma*I - mu*R`. -/
def computeDerivatives (state : ModelState) (params : ModelParameters) :
    Except String ModelState :=
match params.mu, params.alpha, params.N with
| some mu, some alpha, some N =>
  let P := state.S + state.I + state.R
  Except.ok
    ⟨mu * P - params.beta * state.S * state.I / N - mu * state.S,
     params.beta * state.S * state.I / N - params.gamma * state.I
       - mu * state.I - alpha * state.I,
     params.gamma * state.I - mu * state.R⟩
| _, _, _ => Except.error "Disease Deaths model requires mu, alpha, and N parameters"

end DiseaseDeaths

/-- `SimulationResult` from `src/solvers/RK4Solver.ts`: four index-aligned
sequences of time points and compartment values. -/
structure SimulationResult where
t : List ℚ
S : List ℚ
I : List ℚ
R : List ℚ
deriving DecidableEq, Repr

namespace RK4Solver

/-- `RK4Solver.addScaled`: `state + scale * derivative`, componentwise. -/
def addScaled (state derivative : ModelState) (scale : ℚ) : ModelState :=
⟨state.S + scale * derivative.S,
 state.I + scale * derivative.I,
 state.R + scale * derivative.R⟩

/-- `RK4Solver.rk4Step`: one classic 4-stage Runge-Kutta step of size `h`
(the unused time argument of the source is dropped). -/
def rk4Step (derivatives : ModelState → ModelParameters → ModelState)
    (state : ModelState) (params : ModelParameters) (h : ℚ) : ModelState :=
let k1 := derivatives state params
let k2 := derivatives (addScaled state k1 (h / 2)) params
let k3 := derivatives (addScaled state k2 (h / 2)) params
let k4 := derivatives (addScaled state k3 h) params
⟨state.S + h / 6 * (k1.S + 2 * k2.S + 2 * k3.S + k4.S),
 state.I + h / 6 * (k1.I + 2 * k2.I + 2 * k3.I + k4.I),
 state.R + h / 6 * (k1.R + 2 * k2.R + 2 * k3.R + k4.R)⟩

/-- The integration loop of `RK4Solver.solve`: starting from state `y` at
time `t`, perform `n` RK4 steps, recording the initial point and every
subsequent point (the source pushes into four arrays inside a `for` loop;
this is the same trajectory built by recursion on the step count). -/
def solveGo (derivatives : ModelState → ModelParameters → ModelState)
    (params : ModelParameters) (h : ℚ) :
    Nat → ModelState → ℚ → SimulationResult
| 0, y, t => ⟨[t], [y.S], [y.I], [y.R]⟩
| n + 1, y, t =>
  let y2 := rk4Step derivatives y params h
  let r := solveGo derivatives params h n y2 (t + h)
  ⟨t :: r.t, y.S :: r.S, y.I :: r.I, y.R :: r.R⟩

/-- `RK4Solver.solve`: `numSteps = Math.floor((tEnd - tStart) / timeStep)`
iterations of `rk4Step` (none when that floor is not positive), with the
initial point stored first and time advanced by accumulating `timeStep`. -/
def solve (derivatives : ModelState → ModelParameters → ModelState)
    (initialState : ModelState) (params : ModelParameters)
    (timeSpan : ℚ × ℚ) (timeStep : ℚ) : SimulationResult :=
let numSteps : Nat := (⌊(timeSpan.2 - timeSpan.1) / timeStep⌋).toNat
solveGo derivatives params timeStep numSteps initialState timeSpan.1

/-- The k1/k2/k3/k4 update exactly as the specification writes it
(`y_next = y + h/6 * (k1 + 2 k2 + 2 k3 + k4)` with the two half steps),
spelled out componentwise; used to compare the source `rk4Step` against the
spec text. -/
def specStep (f : ModelState → ModelParameters → ModelState)
    (y : ModelState) (params : ModelParameters) (h : ℚ) : ModelState :=
let k1 := f y params
let k2 := f ⟨y.S + h / 2 * k1.S, y.I + h / 2 * k1.I, y.R + h / 2 * k1.R⟩ params
let k3 := f ⟨y.S + h / 2 * k2.S, y.I + h / 2 * k2.I, y.R + h / 2 * k2.R⟩ params
let k4 := f ⟨y.S + h * k3.S, y.I + h * k3.I, y.R + h * k3.R⟩ params
⟨y.S + h / 6 * (k1.S + 2 * k2.S + 2 * k3.S + k4.S),
 y.I + h / 6 * (k1.I + 2 * k2.I + 2 * k3.I + k4.I),
 y.R + h / 6 * (k1.R + 2 * k2.R + 2 * k3.R + k4.R)⟩

end RK4Solver

/-- The state stored at index `i` of a simulation result (reading the three
compartment sequences at the same index, with a default outside bounds). -/
def stateAt (r : SimulationResult) (i : Nat) : ModelState :=
⟨r.S.getD i 0, r.I.getD i 0, r.R.getD i 0⟩

end Exact

namespace Js

/-- `ValidationResult` from `src/utils/calculations.ts`. -/
structure ValidationResult where
isValid : Bool
error : Option String := none
deriving DecidableEq, Repr

/-- `PARAMETER_RANGES` from `src/utils/calculations.ts`, as a lookup from a
parameter name to its `[min, max]` range. -/
def PARAMETER_RANGES : String → Option (ℚ × ℚ)
| "beta" => some (1 / 100000, 10)
| "gamma" => some (1 / 1000, 10)
| "mu" => some (0, 1)
| "alpha" => some (0, 10)
| "N" => some (1, 1000000)
| _ => none

/-- `validateParameter`: rejects NaN and infinities, then range-checks the
value against `PARAMETER_RANGES` (the source's type restricts the name to
the five known ones, so the lookup always succeeds there). -/
def validateParameter (paramName : String) (value : JsNum) : ValidationResult :=
if value.isNaN || !value.isFinite then
  ⟨false, some (paramName ++ " must be a valid number")⟩
else
  match PARAMETER_RANGES paramName with
  | some (mn, mx) =>
    if JsNum.lt value (JsNum.fin mn) || JsNum.lt (JsNum.fin mx) value then
      ⟨false, some (paramName ++ " must be in range")⟩
    else ⟨true, none⟩
  | none => ⟨true, none⟩

/-- `validateInitialConditions`: rejects non-finite and negative values, then
enforces `S0 + I0 + R0 <= N + 1e-10` (the error strings elide the numbers the
source interpolates into them). -/
def validateInitialConditions (S0 I0 R0 : JsNum) (N : JsNum := JsNum.fin 1) :
    ValidationResult :=
if S0.isNaN || !S0.isFinite || I0.isNaN || !I0.isFinite || R0.isNaN || !R0.isFinite then
  ⟨false, some "Initial conditions must be valid numbers"⟩
else if JsNum.lt S0 (JsNum.fin 0) || JsNum.lt I0 (JsNum.fin 0) || JsNum.lt R0 (JsNum.fin 0) then
  ⟨false, some "Initial conditions must be non-negative"⟩
else if JsNum.lt (JsNum.add N (JsNum.fin (1 / 10000000000)))
        (JsNum.add (JsNum.add S0 I0) R0) then
  ⟨false, some "Sum of initial conditions must not exceed total population"⟩
else ⟨true, none⟩

/-- `validateAllParameters`: for each required name, report it missing when
absent from the record, otherwise range-check it when it is one of the five
known parameters.  The record is a keyed association list; only required
names ever receive an entry. -/
def validateAllParameters (parameters : List (String × JsNum))
    (requiredParams : List String) : List (String × ValidationResult) :=
match requiredParams with
| [] => []
| param :: rest =>
  match parameters.lookup param with
  | none =>
    (param, ⟨false, some (param ++ " is required")⟩) :: validateAllParameters parameters rest
  | some value =>
    match PARAMETER_RANGES param with
    | some _ => (param, validateParameter param value) :: validateAllParameters parameters rest
    | none => validateAllParameters parameters rest

/-- `areAllValid`: every recorded validation result passed. -/
def areAllValid (validationResults : List (String × ValidationResult)) : Bool :=
validationResults.all (fun r => r.2.isValid)

/-- `ModelState` over JavaScript numbers. -/
structure ModelState where
S : JsNum
I : JsNum
R : JsNum
deriving DecidableEq, Repr

/-- `ModelParameters` over JavaScript numbers (`mu`, `alpha`, `N` optional). -/
structure ModelParameters where
beta : JsNum
gamma : JsNum
mu : Option JsNum := none
alpha : Option JsNum := none
N : Option JsNum := none
deriving DecidableEq, Repr

/-- The record produced by spreading a `ModelParameters` value into a
`Record<string, number>` (a key is present exactly when the field is). -/
def toRecord (p : ModelParameters) : List (String × JsNum) :=
[("beta", p.beta), ("gamma", p.gamma)]
  ++ (match p.mu with | some v => [("mu", v)] | none => [])
  ++ (match p.alpha with | some v => [("alpha", v)] | none => [])
  ++ (match p.N with | some v => [("N", v)] | none => [])

/-- The `SIRModel` interface from `src/models/SIRModel.ts`: a name, the
required-parameter set, and the two model functions (which may throw). -/
structure SIRModel where
name : String
requiredParameters : List String
computeDerivatives : ModelState → ModelParameters → Except String ModelState
calculateR0 : ModelParameters → Except String JsNum

namespace BasicSIR

/-- `BasicSIR.computeDerivatives` over JavaScript numbers (never throws). -/
def computeDerivatives (state : ModelState) (params : ModelParameters) :
    Except String ModelState :=
Except.ok
  ⟨JsNum.mul (JsNum.mul (JsNum.neg params.beta) state.S) state.I,
   JsNum.sub (JsNum.mul (JsNum.mul params.beta state.S) state.I)
     (JsNum.mul params.gamma state.I),
   JsNum.mul params.gamma state.I⟩

/-- `BasicSIR.calculateR0`: the plain division `beta / gamma`. -/
def calculateR0 (params : ModelParameters) : Except String JsNum :=
Except.ok (JsNum.div params.beta params.gamma)

end BasicSIR

namespace NaturalDemographics

/-- `NaturalDemographics.computeDerivatives`: requires `mu` and `N`; births
are proportional to the living population `P = S + I + R`. -/
def computeDerivatives (state : ModelState) (params : ModelParameters) :
    Except String ModelState :=
match params.mu, params.N with
| some mu, some N =>
  let P := JsNum.add (JsNum.add state.S state.I) state.R
  let transmission := JsNum.div (JsNum.mul (JsNum.mul params.beta state.S) state.I) N
  Except.ok
    ⟨JsNum.sub (JsNum.sub (JsNum.mul mu P) transmission) (JsNum.mul mu state.S),
     JsNum.sub (JsNum.sub transmission (JsNum.mul params.gamma state.I))
       (JsNum.mul mu state.I),
     JsNum.sub (JsNum.mul params.gamma state.I) (JsNum.mul mu state.R)⟩
| _, _ => Except.error "Natural Demographics model requires mu and N parameters"

/-- `NaturalDemographics.calculateR0`: `beta / (gamma + mu)`, with the
division-by-zero guard returning `+Infinity` when `beta > 0` and `0`
otherwise. -/
def calculateR0 (params : ModelParameters) : Except String JsNum :=
match params.mu with
| some mu =>
  let denominator := JsNum.add params.gamma mu
  if denominator = JsNum.fin 0 then
    Except.ok (if JsNum.lt (JsNum.fin 0) params.beta then JsNum.posInf else JsNum.fin 0)
  else Except.ok (JsNum.div params.beta denominator)
| none => Except.error "Natural Demographics model requires mu parameter"

end NaturalDemographics

namespace DiseaseDeaths

/-- `DiseaseDeaths.computeDerivatives` (current version, births proportional
to the living population): requires `mu`, `alpha` and `N`. -/
def computeDerivatives (state : ModelState) (params : ModelParameters) :
    Except String ModelState :=
match params.mu, params.alpha, params.N with
| some mu, some alpha, some N =>
  let P := JsNum.add (JsNum.add state.S state.I) state.R
  let transmission := JsNum.div (JsNum.mul (JsNum.mul params.beta state.S) state.I) N
  Except.ok
    ⟨JsNum.sub (JsNum.sub (JsNum.mul mu P) transmission) (JsNum.mul mu state.S),
     JsNum.sub (JsNum.sub (JsNum.sub transmission (JsNum.mul params.gamma state.I))
       (JsNum.mul mu state.I)) (JsNum.mul alpha state.I),
     JsNum.sub (JsNum.mul params.gamma state.I) (JsNum.mul mu state.R)⟩
| _, _, _ => Except.error "Disease Deaths model requires mu, alpha, and N parameters"

/-- `DiseaseDeaths.calculateR0`: `beta / (gamma + mu + alpha)`, with the
division-by-zero guard returning `+Infinity` when `beta > 0` and `0`
otherwise. -/
def calculateR0 (params : ModelParameters) : Except String JsNum :=
match params.mu, params.alpha with
| some mu, some alpha =>
  let denominator := JsNum.add (JsNum.add params.gamma mu) alpha
  if denominator = JsNum.fin 0 then
    Except.ok (if JsNum.lt (JsNum.fin 0) params.beta then JsNum.posInf else JsNum.fin 0)
  else Except.ok (JsNum.div params.beta denominator)
| _, _ => Except.error "Disease Deaths model requires mu and alpha parameters"

end DiseaseDeaths

/-- The `basic-sir` registry entry. -/
def basicSIR : SIRModel :=
⟨"Basic SIR", ["beta", "gamma"], BasicSIR.computeDerivatives, BasicSIR.calculateR0⟩

/-- The `natural-demographics` registry entry. -/
def naturalDemographics : SIRModel :=
⟨"Natural Demographics", ["beta", "gamma", "mu", "N"],
 NaturalDemographics.computeDerivatives, NaturalDemographics.calculateR0⟩

/-- The `disease-deaths` registry entry. -/
def diseaseDeaths : SIRModel :=
⟨"Disease Deaths", ["beta", "gamma", "mu", "alpha", "N"],
 DiseaseDeaths.computeDerivatives, DiseaseDeaths.calculateR0⟩

/-- The `MODELS` registry of `useSimulation.ts`. -/
def MODELS : String → Option SIRModel
| "basic-sir" => some basicSIR
| "natural-demographics" => some naturalDemographics
| "disease-deaths" => some diseaseDeaths
| _ => none

/-- `SimulationResult` over JavaScript numbers. -/
structure SimulationResult where
t : List JsNum
S : List JsNum
I : List JsNum
R : List JsNum
deriving DecidableEq, Repr

namespace RK4Solver

/-- `RK4Solver.addScaled` over JavaScript numbers. -/
def addScaled (state derivative : ModelState) (scale : JsNum) : ModelState :=
⟨JsNum.add state.S (JsNum.mul scale derivative.S),
 JsNum.add state.I (JsNum.mul scale derivative.I),
 JsNum.add state.R (JsNum.mul scale derivative.R)⟩

/-- `RK4Solver.rk4Step` over JavaScript numbers; a throw from the derivative
closure propagates (modelled by `Except`). -/
def rk4Step (derivatives : ModelState → ModelParameters → Except String ModelState)
    (state : ModelState) (params : ModelParameters) (h : JsNum) :
    Except String ModelState := do
let k1 ← derivatives state params
let k2 ← derivatives (addScaled state k1 (JsNum.div h (JsNum.fin 2))) params
let k3 ← derivatives (addScaled state k2 (JsNum.div h (JsNum.fin 2))) params
let k4 ← derivatives (addScaled state k3 h) params
let w := JsNum.div h (JsNum.fin 6)
Except.ok
  ⟨JsNum.add state.S (JsNum.mul w (JsNum.add (JsNum.add (JsNum.add k1.S
     (JsNum.mul (JsNum.fin 2) k2.S)) (JsNum.mul (JsNum.fin 2) k3.S)) k4.S)),
   JsNum.add state.I (JsNum.mul w (JsNum.add (JsNum.add (JsNum.add k1.I
     (JsNum.mul (JsNum.fin 2) k2.I)) (JsNum.mul (JsNum.fin 2) k3.I)) k4.I)),
   JsNum.add state.R (JsNum.mul w (JsNum.add (JsNum.add (JsNum.add k1.R
     (JsNum.mul (JsNum.fin 2) k2.R)) (JsNum.mul (JsNum.fin 2) k3.R)) k4.R))⟩

/-- The integration loop of `RK4Solver.solve` over JavaScript numbers. -/
def solveGo (derivatives : ModelState → ModelParameters → Except String ModelState)
    (params : ModelParameters) (h : JsNum) :
    Nat → ModelState → JsNum → Except String SimulationResult
| 0, y, t => Except.ok ⟨[t], [y.S], [y.I], [y.R]⟩
| n + 1, y, t => do
  let y2 ← rk4Step derivatives y params h
  let r ← solveGo derivatives params h n y2 (JsNum.add t h)
  Except.ok ⟨t :: r.t, y.S :: r.S, y.I :: r.I, y.R :: r.R⟩

/-- The step count `Math.floor((tEnd - tStart) / timeStep)` as a loop bound.
A NaN or `-Infinity` bound runs the loop zero times, as in JavaScript.  (With
a `+Infinity` bound the JavaScript loop would not terminate; the controller
only ever calls the solver with finite spans and positive steps, so that case
is mapped to zero here.) -/
def numStepsOf (tStart tEnd h : JsNum) : Nat :=
match JsNum.div (JsNum.sub tEnd tStart) h with
| JsNum.fin q => (⌊q⌋).toNat
| _ => 0

/-- `RK4Solver.solve` over JavaScript numbers. -/
def solve (derivatives : ModelState → ModelParameters → Except String ModelState)
    (initialState : ModelState) (params : ModelParameters)
    (timeSpan : JsNum × JsNum) (timeStep : JsNum) : Except String SimulationResult :=
solveGo derivatives params timeStep (numStepsOf timeSpan.1 timeSpan.2 timeStep)
  initialState timeSpan.1

end RK4Solver

/-- `DEFAULT_PARAMETERS` from `useSimulation.ts`. -/
def DEFAULT_PARAMETERS : ModelParameters :=
⟨JsNum.fin (1 / 2), JsNum.fin (1 / 10), some (JsNum.fin (1 / 100)),
 some (JsNum.fin (1 / 20)), some (JsNum.fin 1000)⟩

/-- `DEFAULT_INITIAL_STATE` from `useSimulation.ts`. -/
def DEFAULT_INITIAL_STATE : ModelState :=
⟨JsNum.fin (99 / 100), JsNum.fin (1 / 100), JsNum.fin 0⟩

/-- JavaScript `x || d` applied to a possibly-absent number: the default is
taken when the field is absent or its value is falsy (`0` or NaN). -/
def orFalsy (v : Option JsNum) (d : JsNum) : JsNum :=
match v with
| none => d
| some x => if x = JsNum.fin 0 then d else if x = JsNum.nan then d else x

/-- `validateCurrentParameters` of `useSimulation.ts`, reduced to the boolean
that gates the simulation (the per-field error map it also builds feeds only
the UI). -/
def validateCurrentParameters (model : SIRModel) (parameters : ModelParameters) : Bool :=
areAllValid (validateAllParameters (toRecord parameters) model.requiredParameters)

/-- `validateCurrentInitialState` of `useSimulation.ts`: the capacity is
`parameters.N || 1` when the model requires `N`, and `1` otherwise. -/
def validateCurrentInitialState (model : SIRModel) (parameters : ModelParameters)
    (initialState : ModelState) : Bool :=
let N := if model.requiredParameters.contains "N"
         then orFalsy parameters.N (JsNum.fin 1) else JsNum.fin 1
(validateInitialConditions initialState.S initialState.I initialState.R N).isValid

/-- The `hasNaN` test of `runSimulation`: some entry of `S`, `I` or `R` is
non-finite (the `t` sequence is not checked). -/
def hasNonFiniteValues (result : SimulationResult) : Bool :=
result.S.any (fun v => !v.isFinite) || result.I.any (fun v => !v.isFinite)
  || result.R.any (fun v => !v.isFinite)

/-- The tail of `runSimulation` after the solver returns: discard the result
when it contains non-finite values (leaving the published R0 as just set),
publish it otherwise. -/
def publishResult (r0 : JsNum) (result : SimulationResult) :
    Option SimulationResult × JsNum :=
if hasNonFiniteValues result then (none, r0) else (some result, r0)

/-- `runSimulation` of `useSimulation.ts`, as a function from the controller
inputs to the pair `(simulationResult, r0Value)` it publishes: validation
failure, a throwing `calculateR0`, a non-finite R0 or a throwing derivative
yield `(null, 0)`; otherwise the solver runs over `[0,500]` with step `0.1`
when the model requires `mu` and `[0,100]` with step `0.01` otherwise, and
the result is published through `publishResult`. -/
def runSimulation (model : SIRModel) (parameters : ModelParameters)
    (initialState : ModelState) : Option SimulationResult × JsNum :=
if validateCurrentParameters model parameters
    && validateCurrentInitialState model parameters initialState then
  match model.calculateR0 parameters with
  | Except.error _ => (none, JsNum.fin 0)
  | Except.ok r0 =>
    if !r0.isFinite then (none, JsNum.fin 0)
    else
      let hasVitalDynamics := model.requiredParameters.contains "mu"
      let timeSpan := if hasVitalDynamics then (JsNum.fin 0, JsNum.fin 500)
                      else (JsNum.fin 0, JsNum.fin 100)
      let timeStep := if hasVitalDynamics then JsNum.fin (1 / 10) else JsNum.fin (1 / 100)
      match RK4Solver.solve model.computeDerivatives initialState parameters
              timeSpan timeStep with
      | Except.error _ => (none, JsNum.fin 0)
      | Except.ok result => publishResult r0 result
else (none, JsNum.fin 0)

/-- The controller-owned mutable state of `useSimulation.ts`. -/
structure ControllerState where
selectedModel : String
parameters : ModelParameters
initialState : ModelState
deriving Repr

/-- `setSelectedModel` of `useSimulation.ts`: a no-op for unknown names;
otherwise preserves `beta`/`gamma`, copies or defaults each optional
parameter the new model requires, and rescales the initial state by `N` when
crossing between normalized and absolute-population variants (multiplying by
the preserved `N` going in, dividing by the outgoing model's `N` going
out; `??` is nullish coalescing, so only an absent field is defaulted). -/
def setSelectedModel (modelName : String) (st : ControllerState) : ControllerState :=
match MODELS modelName with
| none => st
| some newModel =>
  let requiredParams := newModel.requiredParameters
  let oldRequiredParams := match MODELS st.selectedModel with
                           | some oldModel => oldModel.requiredParameters
                           | none => []
  let preservedParams : ModelParameters :=
    { beta := st.parameters.beta
      gamma := st.parameters.gamma
      mu := if requiredParams.contains "mu"
            then some (st.parameters.mu.getD (DEFAULT_PARAMETERS.mu.getD (JsNum.fin 0)))
            else none
      alpha := if requiredParams.contains "alpha"
               then some (st.parameters.alpha.getD (DEFAULT_PARAMETERS.alpha.getD (JsNum.fin 0)))
               else none
      N := if requiredParams.contains "N"
           then some (st.parameters.N.getD (DEFAULT_PARAMETERS.N.getD (JsNum.fin 0)))
           else none }
  let oldHasN := oldRequiredParams.contains "N"
  let newHasN := requiredParams.contains "N"
  let newInitialState :=
    if !oldHasN && newHasN then
      let N := (preservedParams.N).getD (DEFAULT_PARAMETERS.N.getD (JsNum.fin 1000))
      ModelState.mk (JsNum.mul st.initialState.S N) (JsNum.mul st.initialState.I N)
        (JsNum.mul st.initialState.R N)
    else if oldHasN && !newHasN then
      let oldN := (st.parameters.N).getD (DEFAULT_PARAMETERS.N.getD (JsNum.fin 1000))
      ModelState.mk (JsNum.div st.initialState.S oldN) (JsNum.div st.initialState.I oldN)
        (JsNum.div st.initialState.R oldN)
    else st.initialState
  ⟨modelName, preservedParams, newInitialState⟩

end Js

namespace Exact

theorem solveGo_t_length (f : ModelState → ModelParameters → ModelState)
    (p : ModelParameters) (h : ℚ) (n : Nat) :
    ∀ (y : ModelState) (t : ℚ), (RK4Solver.solveGo f p h n y t).t.length = n + 1 := by
induction n with
| zero => intro y t; rfl
| succ n ih => intro y t; simp [RK4Solver.solveGo, ih]

theorem solveGo_S_length (f : ModelState → ModelParameters → ModelState)
    (p : ModelParameters) (h : ℚ) (n : Nat) :
    ∀ (y : ModelState) (t : ℚ), (RK4Solver.solveGo f p h n y t).S.length = n + 1 := by
induction n with
| zero => intro y t; rfl
| succ n ih => intro y t; simp [RK4Solver.solveGo, ih]

theorem solveGo_I_length (f : ModelState → ModelParameters → ModelState)
    (p : ModelParameters) (h : ℚ) (n : Nat) :
    ∀ (y : ModelState) (t : ℚ), (RK4Solver.solveGo f p h n y t).I.length = n + 1 := by
induction n with
| zero => intro y t; rfl
| succ n ih => intro y t; simp [RK4Solver.solveGo, ih]

theorem solveGo_R_length (f : ModelState → ModelParameters → ModelState)
    (p : ModelParameters) (h : ℚ) (n : Nat) :
    ∀ (y : ModelState) (t : ℚ), (RK4Solver.solveGo f p h n y t).R.length = n + 1 := by
induction n with
| zero => intro y t; rfl
| succ n ih => intro y t; simp [RK4Solver.solveGo, ih]

theorem solveGo_t_first (f : ModelState → ModelParameters → ModelState)
    (p : ModelParameters) (h : ℚ) (n : Nat) (y : ModelState) (t : ℚ) :
    (RK4Solver.solveGo f p h n y t).t.getD 0 0 = t := by
cases n <;> rfl

/-- The state recorded at index `i` of the integration loop is the `i`-fold
iterate of the single RK4 step on the initial state. -/
theorem solveGo_stateAt (f : ModelState → ModelParameters → ModelState)
    (p : ModelParameters) (h : ℚ) (n : Nat) :
    ∀ (y : ModelState) (t : ℚ) (i : Nat), i ≤ n →
      stateAt (RK4Solver.solveGo f p h n y t) i =
        (fun z => RK4Solver.rk4Step f z p h)^[i] y := by
induction n with
| zero =>
  intro y t i hi
  have hz : i = 0 := Nat.le_zero.mp hi
  subst hz
  rfl
| succ n ih =>
  intro y t i hi
  cases i with
  | zero => rfl
  | succ j =>
    have hj : j ≤ n := Nat.succ_le_succ_iff.mp hi
    have hstep : stateAt (RK4Solver.solveGo f p h (n + 1) y t) (j + 1) =
        stateAt (RK4Solver.solveGo f p h n (RK4Solver.rk4Step f y p h) (t + h)) j := by
      simp [RK4Solver.solveGo, stateAt]
    rw [hstep, ih (RK4Solver.rk4Step f y p h) (t + h) j hj,
      Function.iterate_succ_apply]

/-- The source `rk4Step` computes exactly the update written in the
specification. -/
theorem rk4Step_eq_specStep (f : ModelState → ModelParameters → ModelState)
    (y : ModelState) (p : ModelParameters) (h : ℚ) :
    RK4Solver.rk4Step f y p h = RK4Solver.specStep f y p h := rfl

/-- The BasicSIR derivative components sum to zero at every state. -/
theorem basicSIR_deriv_sum (st : ModelState) (p : ModelParameters) :
    (BasicSIR.computeDerivatives st p).S + (BasicSIR.computeDerivatives st p).I
      + (BasicSIR.computeDerivatives st p).R = 0 := by
simp only [BasicSIR.computeDerivatives]
ring

/-- One RK4 step with the BasicSIR derivative preserves `S + I + R` exactly
(in exact arithmetic). -/
theorem rk4Step_basicSIR_sum (st : ModelState) (p : ModelParameters) (h : ℚ) :
    (RK4Solver.rk4Step BasicSIR.computeDerivatives st p h).S
      + (RK4Solver.rk4Step BasicSIR.computeDerivatives st p h).I
      + (RK4Solver.rk4Step BasicSIR.computeDerivatives st p h).R
      = st.S + st.I + st.R := by
simp only [RK4Solver.rk4Step, RK4Solver.addScaled, BasicSIR.computeDerivatives]
ring

/-- Iterating the BasicSIR RK4 step preserves `S + I + R`. -/
theorem iterate_rk4Step_basicSIR_sum (p : ModelParameters) (h : ℚ) (y : ModelState)
    (i : Nat) :
    ((fun z => RK4Solver.rk4Step BasicSIR.computeDerivatives z p h)^[i] y).S
      + ((fun z => RK4Solver.rk4Step BasicSIR.computeDerivatives z p h)^[i] y).I
      + ((fun z => RK4Solver.rk4Step BasicSIR.computeDerivatives z p h)^[i] y).R
      = y.S + y.I + y.R := by
induction i generalizing y with
| zero => rfl
| succ i ih =>
  rw [Function.iterate_succ_apply]
  exact (ih (RK4Solver.rk4Step BasicSIR.computeDerivatives y p h)).trans
    (rk4Step_basicSIR_sum y p h)

end Exact

/-- Claim C1: for the DiseaseDeaths model, at every state and every parameter
set with `mu`, `alpha`, `N` all present, the component sum of the derivatives
returned by `computeDerivatives` equals `-alpha * I`; with `alpha > 0` that
sum is strictly negative whenever `I > 0`, and with `alpha = 0` it is exactly
`0` (total population conserved). -/
theorem claim_C1_diseaseDeaths_derivative_sum (st : Exact.ModelState)
    (p : Exact.ModelParameters) (m a n : ℚ)
    (hm : p.mu = some m) (ha : p.alpha = some a) (hn : p.N = some n) :
    (Exact.DiseaseDeaths.computeDerivatives st p).map (fun d => d.S + d.I + d.R)
      = Except.ok (-(a * st.I))
    ∧ (0 < a → 0 < st.I → -(a * st.I) < 0)
    ∧ (a = 0 → -(a * st.I) = 0) := by
refine ⟨?_, ?_, ?_⟩
· simp only [Exact.DiseaseDeaths.computeDerivatives, hm, ha, hn, Except.map]
  congr 1
  ring
· intro ha' hI
  have := mul_pos ha' hI
  linarith
· intro h0
  simp [h0]

/-- Witness for C1 at the state and parameters of the repository's own
population-dynamics test (`S=500, I=100, R=400`, `alpha=0.05`): the
derivative sum is `-0.05 * 100 = -5`. -/
theorem claim_C1_witness :
    (Exact.DiseaseDeaths.computeDerivatives ⟨500, 100, 400⟩
        ⟨1 / 10, 1 / 10, some (1 / 100), some (1 / 20), some 1000⟩).map
        (fun d => d.S + d.I + d.R)
      = Except.ok (-((1 / 20) * 100)) :=
(claim_C1_diseaseDeaths_derivative_sum ⟨500, 100, 400⟩
  ⟨1 / 10, 1 / 10, some (1 / 100), some (1 / 20), some 1000⟩
  (1 / 100) (1 / 20) 1000 rfl rfl rfl).1

/-- Claim C2: with all required parameters present, `calculateR0` returns
`beta / (gamma + mu)` for NaturalDemographics and
`beta / (gamma + mu + alpha)` for DiseaseDeaths; when the denominator is
exactly `0` it returns `+Infinity` if `beta > 0` and `0` otherwise, and it
never throws in that case (the result is always `Except.ok`).  The closed
conjunct is the specification's own edge case `beta=0.5, gamma=0, mu=0`. -/
theorem claim_C2_calculateR0_edge (b g m a : ℚ) (alphaOpt NOpt : Option JsNum) :
    Js.NaturalDemographics.calculateR0
        ⟨JsNum.fin b, JsNum.fin g, some (JsNum.fin m), alphaOpt, NOpt⟩
      = Except.ok (if g + m = 0 then (if 0 < b then JsNum.posInf else JsNum.fin 0)
                   else JsNum.fin (b / (g + m)))
    ∧ Js.DiseaseDeaths.calculateR0
        ⟨JsNum.fin b, JsNum.fin g, some (JsNum.fin m), some (JsNum.fin a), NOpt⟩
      = Except.ok (if g + m + a = 0 then (if 0 < b then JsNum.posInf else JsNum.fin 0)
                   else JsNum.fin (b / (g + m + a)))
    ∧ Js.NaturalDemographics.calculateR0
        ⟨JsNum.fin (1 / 2), JsNum.fin 0, some (JsNum.fin 0), none, none⟩
      = Except.ok JsNum.posInf := by
refine ⟨?_, ?_, by norm_num [Js.NaturalDemographics.calculateR0, JsNum.add, JsNum.lt]⟩
· by_cases hden : g + m = 0
  · by_cases hb : 0 < b <;>
      simp [Js.NaturalDemographics.calculateR0, JsNum.add, JsNum.lt, hden, hb]
  · simp [Js.NaturalDemographics.calculateR0, JsNum.add, JsNum.div, hden]
· by_cases hden : g + m + a = 0
  · by_cases hb : 0 < b <;>
      simp [Js.DiseaseDeaths.calculateR0, JsNum.add, JsNum.lt, hden, hb]
  · simp [Js.DiseaseDeaths.calculateR0, JsNum.add, JsNum.div, hden]

/-- Claim C7: `BasicSIR.computeDerivatives` returns exactly
`dS = -beta*S*I`, `dI = beta*S*I - gamma*I`, `dR = gamma*I` (no division by
`N`), and `BasicSIR.calculateR0` returns `beta / gamma`. -/
theorem claim_C7_basicSIR_equations :
    (∀ (st : Exact.ModelState) (p : Exact.ModelParameters),
      Exact.BasicSIR.computeDerivatives st p
        = ⟨-(p.beta * st.S * st.I), p.beta * st.S * st.I - p.gamma * st.I,
           p.gamma * st.I⟩)
    ∧ (∀ p : Exact.ModelParameters, p.gamma ≠ 0 →
      Exact.BasicSIR.calculateR0 p = p.beta / p.gamma) := by
constructor
· intro st p
  simp only [Exact.BasicSIR.computeDerivatives, neg_mul]
· intro p _
  rfl

/-- Witness for C7 at the default parameters `beta=0.5, gamma=0.1`. -/
theorem claim_C7_witness :
    Exact.BasicSIR.calculateR0 ⟨1 / 2, 1 / 10, none, none, none⟩ = (1 / 2) / (1 / 10)
    ∧ Exact.BasicSIR.computeDerivatives ⟨99 / 100, 1 / 100, 0⟩
        ⟨1 / 2, 1 / 10, none, none, none⟩
      = ⟨-((1 / 2) * (99 / 100) * (1 / 100)),
         (1 / 2) * (99 / 100) * (1 / 100) - (1 / 10) * (1 / 100), (1 / 10) * (1 / 100)⟩ :=
⟨claim_C7_basicSIR_equations.2 ⟨1 / 2, 1 / 10, none, none, none⟩ (by norm_num),
 claim_C7_basicSIR_equations.1 ⟨99 / 100, 1 / 100, 0⟩ ⟨1 / 2, 1 / 10, none, none, none⟩⟩

/-- Claim C10: when `h > 0` and `h > tEnd - tStart` (in particular whenever
`tEnd <= tStart`), the step count `floor((tEnd - tStart) / h)` is at most
`0`, and `solve` returns the four length-one sequences holding only the
start time and the unmodified initial state; it is total under these
preconditions. -/
theorem claim_C10_solve_degenerate_span
    (f : Exact.ModelState → Exact.ModelParameters → Exact.ModelState)
    (y0 : Exact.ModelState) (p : Exact.ModelParameters) (tStart tEnd h : ℚ)
    (hpos : 0 < h) (hspan : tEnd - tStart < h) :
    ⌊(tEnd - tStart) / h⌋ ≤ 0
    ∧ Exact.RK4Solver.solve f y0 p (tStart, tEnd) h
        = ⟨[tStart], [y0.S], [y0.I], [y0.R]⟩ := by
have hq : (tEnd - tStart) / h < 1 := (div_lt_one hpos).mpr hspan
have hfl : ⌊(tEnd - tStart) / h⌋ < 1 := Int.floor_lt.mpr (by exact_mod_cast hq)
have hle : ⌊(tEnd - tStart) / h⌋ ≤ 0 := by omega
refine ⟨hle, ?_⟩
have h0 : (⌊(tEnd - tStart) / h⌋).toNat = 0 := Int.toNat_of_nonpos hle
simp [Exact.RK4Solver.solve, h0, Exact.RK4Solver.solveGo]

/-- Witness for C10: a span of length `3` with step `5` yields a single
sample. -/
theorem claim_C10_witness :
    (0 : ℚ) < 5 ∧ (3 : ℚ) - 0 < 5
    ∧ Exact.RK4Solver.solve (fun s _ => ⟨s.I, s.R, s.S⟩) ⟨1, 2, 3⟩
        ⟨1, 1, none, none, none⟩ (0, 3) 5
      = ⟨[0], [1], [2], [3]⟩ :=
⟨by norm_num, by norm_num,
 (claim_C10_solve_degenerate_span (fun s _ => ⟨s.I, s.R, s.S⟩) ⟨1, 2, 3⟩
   ⟨1, 1, none, none, none⟩ 0 3 5 (by norm_num) (by norm_num)).2⟩

/-- Claim C4: `solve` performs exactly `floor((tEnd - tStart) / timeStep)`
steps of the classic 4-stage Runge-Kutta update (written out in `specStep`
exactly as the specification gives it), returning four sequences of length
`steps + 1` whose index `0` holds the initial time and state; the `toNat`
clamp coincides with the floor whenever the floor is nonnegative. -/
theorem claim_C4_rk4_solve_structure
    (f : Exact.ModelState → Exact.ModelParameters → Exact.ModelState)
    (y0 : Exact.ModelState) (p : Exact.ModelParameters) (tStart tEnd h : ℚ) :
    (Exact.RK4Solver.solve f y0 p (tStart, tEnd) h).t.length
        = (⌊(tEnd - tStart) / h⌋).toNat + 1
    ∧ (Exact.RK4Solver.solve f y0 p (tStart, tEnd) h).S.length
        = (⌊(tEnd - tStart) / h⌋).toNat + 1
    ∧ (Exact.RK4Solver.solve f y0 p (tStart, tEnd) h).I.length
        = (⌊(tEnd - tStart) / h⌋).toNat + 1
    ∧ (Exact.RK4Solver.solve f y0 p (tStart, tEnd) h).R.length
        = (⌊(tEnd - tStart) / h⌋).toNat + 1
    ∧ (Exact.RK4Solver.solve f y0 p (tStart, tEnd) h).t.getD 0 0 = tStart
    ∧ Exact.stateAt (Exact.RK4Solver.solve f y0 p (tStart, tEnd) h) 0 = y0
    ∧ ((0 : ℤ) ≤ ⌊(tEnd - tStart) / h⌋ →
        ((⌊(tEnd - tStart) / h⌋).toNat : ℤ) = ⌊(tEnd - tStart) / h⌋)
    ∧ (∀ i, i < (⌊(tEnd - tStart) / h⌋).toNat →
        Exact.stateAt (Exact.RK4Solver.solve f y0 p (tStart, tEnd) h) (i + 1)
          = Exact.RK4Solver.specStep f
              (Exact.stateAt (Exact.RK4Solver.solve f y0 p (tStart, tEnd) h) i) p h) := by
have hsolve : Exact.RK4Solver.solve f y0 p (tStart, tEnd) h
    = Exact.RK4Solver.solveGo f p h ((⌊(tEnd - tStart) / h⌋).toNat) y0 tStart := rfl
refine ⟨?_, ?_, ?_, ?_, ?_, ?_, ?_, ?_⟩
· rw [hsolve, Exact.solveGo_t_length]
· rw [hsolve, Exact.solveGo_S_length]
· rw [hsolve, Exact.solveGo_I_length]
· rw [hsolve, Exact.solveGo_R_length]
· rw [hsolve, Exact.solveGo_t_first]
· rw [hsolve, Exact.solveGo_stateAt f p h _ y0 tStart 0 (Nat.zero_le _)]
  rfl
· intro hnn
  exact Int.toNat_of_nonneg hnn
· intro i hi
  rw [hsolve,
    Exact.solveGo_stateAt f p h _ y0 tStart (i + 1) (Nat.succ_le_of_lt hi),
    Exact.solveGo_stateAt f p h _ y0 tStart i (Nat.le_of_lt hi),
    Function.iterate_succ_apply']
  exact Exact.rk4Step_eq_specStep f _ p h

/-- Witness for C4 with the constant derivative `f = (1, 0, 0)` on the span
`[0, 1]` with step `1/2` (two steps, three samples). -/
theorem claim_C4_witness :
    (Exact.RK4Solver.solve (fun _ _ => ⟨1, 0, 0⟩) ⟨0, 0, 0⟩
        ⟨1, 1, none, none, none⟩ (0, 1) (1 / 2)).t.length
      = (⌊((1 : ℚ) - 0) / (1 / 2)⌋).toNat + 1
    ∧ Exact.stateAt (Exact.RK4Solver.solve (fun _ _ => ⟨1, 0, 0⟩) ⟨0, 0, 0⟩
        ⟨1, 1, none, none, none⟩ (0, 1) (1 / 2)) 1
      = Exact.RK4Solver.specStep (fun _ _ => ⟨1, 0, 0⟩)
          (Exact.stateAt (Exact.RK4Solver.solve (fun _ _ => ⟨1, 0, 0⟩) ⟨0, 0, 0⟩
            ⟨1, 1, none, none, none⟩ (0, 1) (1 / 2)) 0) ⟨1, 1, none, none, none⟩ (1 / 2) :=
⟨(claim_C4_rk4_solve_structure (fun _ _ => ⟨1, 0, 0⟩) ⟨0, 0, 0⟩
   ⟨1, 1, none, none, none⟩ 0 1 (1 / 2)).1,
 (claim_C4_rk4_solve_structure (fun _ _ => ⟨1, 0, 0⟩) ⟨0, 0, 0⟩
   ⟨1, 1, none, none, none⟩ 0 1 (1 / 2)).2.2.2.2.2.2.2 0 (by norm_num)⟩

/-- Claim C5: a single RK4 step on the BasicSIR derivative preserves
`S + I + R` exactly (in exact arithmetic), and consequently, for parameters
in the valid ranges and an initial state summing to `1`, every index of the
solver output sums to `1` within `1e-5` absolute tolerance (here: exactly,
so trivially within tolerance). -/
theorem claim_C5_basicSIR_conservation :
    (∀ (st : Exact.ModelState) (p : Exact.ModelParameters) (h : ℚ),
      (Exact.RK4Solver.rk4Step Exact.BasicSIR.computeDerivatives st p h).S
        + (Exact.RK4Solver.rk4Step Exact.BasicSIR.computeDerivatives st p h).I
        + (Exact.RK4Solver.rk4Step Exact.BasicSIR.computeDerivatives st p h).R
        = st.S + st.I + st.R)
    ∧ (∀ (b g : ℚ) (y0 : Exact.ModelState) (tStart tEnd h : ℚ) (i : Nat),
      1 / 100000 ≤ b → b ≤ 10 → 1 / 1000 ≤ g → g ≤ 10 →
      y0.S + y0.I + y0.R = 1 →
      i < (Exact.RK4Solver.solve Exact.BasicSIR.computeDerivatives y0
            ⟨b, g, none, none, none⟩ (tStart, tEnd) h).t.length →
      |(Exact.stateAt (Exact.RK4Solver.solve Exact.BasicSIR.computeDerivatives y0
            ⟨b, g, none, none, none⟩ (tStart, tEnd) h) i).S
        + (Exact.stateAt (Exact.RK4Solver.solve Exact.BasicSIR.computeDerivatives y0
            ⟨b, g, none, none, none⟩ (tStart, tEnd) h) i).I
        + (Exact.stateAt (Exact.RK4Solver.solve Exact.BasicSIR.computeDerivatives y0
            ⟨b, g, none, none, none⟩ (tStart, tEnd) h) i).R - 1| ≤ 1 / 100000) := by
constructor
· exact Exact.rk4Step_basicSIR_sum
· intro b g y0 tStart tEnd h i _ _ _ _ hsum hi
  have hsolve : Exact.RK4Solver.solve Exact.BasicSIR.computeDerivatives y0
      ⟨b, g, none, none, none⟩ (tStart, tEnd) h
      = Exact.RK4Solver.solveGo Exact.BasicSIR.computeDerivatives
          ⟨b, g, none, none, none⟩ h ((⌊(tEnd - tStart) / h⌋).toNat) y0 tStart := rfl
  have hlen : (Exact.RK4Solver.solve Exact.BasicSIR.computeDerivatives y0
      ⟨b, g, none, none, none⟩ (tStart, tEnd) h).t.length
      = (⌊(tEnd - tStart) / h⌋).toNat + 1 := by
    rw [hsolve, Exact.solveGo_t_length]
  have hile : i ≤ (⌊(tEnd - tStart) / h⌋).toNat := by
    rw [hlen] at hi
    omega
  rw [hsolve, Exact.solveGo_stateAt Exact.BasicSIR.computeDerivatives
    ⟨b, g, none, none, none⟩ h _ y0 tStart i hile,
    Exact.iterate_rk4Step_basicSIR_sum ⟨b, g, none, none, none⟩ h y0 i, hsum]
  norm_num

/-- Witness for C5 at `beta=0.5, gamma=0.1`, initial state
`(0.99, 0.01, 0)`, span `[0, 1]`, step `1`, output index `1`. -/
theorem claim_C5_witness :
    (1 : ℚ) / 100000 ≤ 1 / 2 ∧ (1 : ℚ) / 2 ≤ 10
    ∧ (1 : ℚ) / 1000 ≤ 1 / 10 ∧ (1 : ℚ) / 10 ≤ 10
    ∧ ((99 : ℚ) / 100) + 1 / 100 + 0 = 1
    ∧ |(Exact.stateAt (Exact.RK4Solver.solve Exact.BasicSIR.computeDerivatives
          ⟨99 / 100, 1 / 100, 0⟩ ⟨1 / 2, 1 / 10, none, none, none⟩ (0, 1) 1) 1).S
        + (Exact.stateAt (Exact.RK4Solver.solve Exact.BasicSIR.computeDerivatives
          ⟨99 / 100, 1 / 100, 0⟩ ⟨1 / 2, 1 / 10, none, none, none⟩ (0, 1) 1) 1).I
        + (Exact.stateAt (Exact.RK4Solver.solve Exact.BasicSIR.computeDerivatives
          ⟨99 / 100, 1 / 100, 0⟩ ⟨1 / 2, 1 / 10, none, none, none⟩ (0, 1) 1) 1).R
        - 1| ≤ 1 / 100000 :=
⟨by norm_num, by norm_num, by norm_num, by norm_num, by norm_num,
 claim_C5_basicSIR_conservation.2 (1 / 2) (1 / 10) ⟨99 / 100, 1 / 100, 0⟩ 0 1 1 1
   (by norm_num) (by norm_num) (by norm_num) (by norm_num) (by norm_num)
   (by
     have hl : (Exact.RK4Solver.solve Exact.BasicSIR.computeDerivatives
         ⟨99 / 100, 1 / 100, 0⟩ ⟨1 / 2, 1 / 10, none, none, none⟩ (0, 1) 1).t.length
         = (⌊((1 : ℚ) - 0) / 1⌋).toNat + 1 :=
       Exact.solveGo_t_length Exact.BasicSIR.computeDerivatives
         ⟨1 / 2, 1 / 10, none, none, none⟩ 1 ((⌊((1 : ℚ) - 0) / 1⌋).toNat)
         ⟨99 / 100, 1 / 100, 0⟩ 0
     rw [hl]
     norm_num)⟩

/-- Claim C8: `validateInitialConditions` fails exactly when some of
`S0, I0, R0` is NaN or infinite, or some of them is negative, or
`S0 + I0 + R0 > N + 1e-10` (all in JavaScript comparison semantics); the
boundary where the sum equals `N` exactly is valid: `(500, 300, 200, 1000)`
is valid and `(600, 400, 200, 1000)` is invalid. -/
theorem claim_C8_validateInitialConditions :
    (∀ S0 I0 R0 N : JsNum,
      (Js.validateInitialConditions S0 I0 R0 N).isValid = false ↔
        ((S0.isNaN || !S0.isFinite || I0.isNaN || !I0.isFinite
            || R0.isNaN || !R0.isFinite) = true
         ∨ (JsNum.lt S0 (JsNum.fin 0) || JsNum.lt I0 (JsNum.fin 0)
            || JsNum.lt R0 (JsNum.fin 0)) = true
         ∨ JsNum.lt (JsNum.add N (JsNum.fin (1 / 10000000000)))
             (JsNum.add (JsNum.add S0 I0) R0) = true))
    ∧ (Js.validateInitialConditions (JsNum.fin 500) (JsNum.fin 300) (JsNum.fin 200)
        (JsNum.fin 1000)).isValid = true
    ∧ (Js.validateInitialConditions (JsNum.fin 600) (JsNum.fin 400) (JsNum.fin 200)
        (JsNum.fin 1000)).isValid = false := by
refine ⟨?_,
  by norm_num [Js.validateInitialConditions, JsNum.isNaN, JsNum.isFinite, JsNum.add, JsNum.lt],
  by norm_num [Js.validateInitialConditions, JsNum.isNaN, JsNum.isFinite, JsNum.add, JsNum.lt]⟩
intro S0 I0 R0 N
unfold Js.validateInitialConditions
rcases hc1 : (S0.isNaN || !S0.isFinite || I0.isNaN || !I0.isFinite
    || R0.isNaN || !R0.isFinite) with _ | _ <;>
  rcases hc2 : (JsNum.lt S0 (JsNum.fin 0) || JsNum.lt I0 (JsNum.fin 0)
    || JsNum.lt R0 (JsNum.fin 0)) with _ | _ <;>
  rcases hc3 : JsNum.lt (JsNum.add N (JsNum.fin (1 / 10000000000)))
    (JsNum.add (JsNum.add S0 I0) R0) with _ | _ <;>
  simp [hc1, hc2, hc3]

/-- Unfolding equation for `validateAllParameters` on an empty required
set. -/
theorem validateAllParameters_nil (params : List (String × JsNum)) :
    Js.validateAllParameters params [] = [] := rfl

/-- Unfolding equation for `validateAllParameters` on a nonempty required
set. -/
theorem validateAllParameters_cons (params : List (String × JsNum))
    (param : String) (rest : List String) :
    Js.validateAllParameters params (param :: rest) =
      match params.lookup param with
      | none => (param, ⟨false, some (param ++ " is required")⟩)
          :: Js.validateAllParameters params rest
      | some value =>
        match Js.PARAMETER_RANGES param with
        | some _ => (param, Js.validateParameter param value)
            :: Js.validateAllParameters params rest
        | none => Js.validateAllParameters params rest := rfl

/-- Claim C9: `validateAllParameters` produces entries only for names listed
in `requiredParams`; a parameter present in the record but not required is
never consulted, so prepending any (possibly non-finite or out-of-range)
binding for a non-required name leaves the validation output — and hence
`areAllValid` — unchanged.  The closed conjunct shows a record carrying
`alpha = NaN` and `N = -5` still passing validation for BasicSIR's
required set. -/
theorem claim_C9_validateAllParameters_required_only :
    (∀ (params : List (String × JsNum)) (required : List String)
      (entry : String × Js.ValidationResult),
      entry ∈ Js.validateAllParameters params required → entry.1 ∈ required)
    ∧ (∀ (params : List (String × JsNum)) (required : List String)
        (name : String) (v : JsNum), name ∉ required →
        Js.validateAllParameters ((name, v) :: params) required
          = Js.validateAllParameters params required)
    ∧ (∀ (params : List (String × JsNum)) (required : List String)
        (name : String) (v : JsNum), name ∉ required →
        Js.areAllValid (Js.validateAllParameters ((name, v) :: params) required)
          = Js.areAllValid (Js.validateAllParameters params required))
    ∧ Js.areAllValid (Js.validateAllParameters
        [("beta", JsNum.fin (1 / 2)), ("gamma", JsNum.fin (1 / 10)),
         ("alpha", JsNum.nan), ("N", JsNum.fin (-5))] ["beta", "gamma"]) = true := by
have hkeys : ∀ (params : List (String × JsNum)) (required : List String)
    (entry : String × Js.ValidationResult),
    entry ∈ Js.validateAllParameters params required → entry.1 ∈ required := by
  intro params required
  induction required with
  | nil => intro entry he; simp [validateAllParameters_nil] at he
  | cons param rest ih =>
    intro entry he
    rw [validateAllParameters_cons] at he
    rcases hl : params.lookup param with _ | value <;> rw [hl] at he
    · rcases List.mem_cons.mp he with he1 | he2
      · simp [he1]
      · simp [ih entry he2]
    · rcases hr : Js.PARAMETER_RANGES param with _ | rng <;> rw [hr] at he
      · simp [ih entry he]
      · rcases List.mem_cons.mp he with he1 | he2
        · simp [he1]
        · simp [ih entry he2]
have hskip : ∀ (params : List (String × JsNum)) (required : List String)
    (name : String) (v : JsNum), name ∉ required →
    Js.validateAllParameters ((name, v) :: params) required
      = Js.validateAllParameters params required := by
  intro params required name v
  induction required with
  | nil => intro; rfl
  | cons param rest ih =>
    intro hnot
    have hne : param ≠ name := fun hcontra => hnot (by simp [hcontra])
    have hrest : name ∉ rest := fun hcontra => hnot (List.mem_cons_of_mem _ hcontra)
    have hlk : ((name, v) :: params).lookup param = params.lookup param := by
      simp [List.lookup, beq_eq_false_iff_ne.mpr hne]
    rw [validateAllParameters_cons, validateAllParameters_cons, hlk, ih hrest]
refine ⟨hkeys, hskip, ?_, ?_⟩
· intro params required name v hnot
  rw [hskip params required name v hnot]
· simp only [Js.validateAllParameters, Js.areAllValid, Js.validateParameter,
    Js.PARAMETER_RANGES, List.lookup, JsNum.isNaN, JsNum.isFinite, JsNum.lt,
    show ("beta" == "beta") = true from by decide,
    show ("gamma" == "beta") = false from by decide,
    show ("gamma" == "gamma") = true from by decide]
  norm_num

/-- Witness for C9: `"alpha"` is not among BasicSIR's required names, so an
`alpha = NaN` binding leaves the output unchanged. -/
theorem claim_C9_witness :
    ("alpha" ∉ ["beta", "gamma"])
    ∧ Js.validateAllParameters
        [("alpha", JsNum.nan), ("beta", JsNum.fin (1 / 2)), ("gamma", JsNum.fin (1 / 10))]
        ["beta", "gamma"]
      = Js.validateAllParameters
        [("beta", JsNum.fin (1 / 2)), ("gamma", JsNum.fin (1 / 10))] ["beta", "gamma"] :=
⟨by decide,
 claim_C9_validateAllParameters_required_only.2.1
   [("beta", JsNum.fin (1 / 2)), ("gamma", JsNum.fin (1 / 10))] ["beta", "gamma"]
   "alpha" JsNum.nan (by decide)⟩

/-- Claim C3 (amended): the controller's computation publishes
`(result = null, r0 = 0)` when parameter or initial-condition validation
fails (without reaching the integrator) and when the computed R0 is
non-finite; when the integrator's result contains non-finite values it
publishes `result = null` but keeps `r0Value` at the just-computed R0
instead of resetting it to `0`. -/
theorem claim_C3_amended :
    (∀ (model : Js.SIRModel) (p : Js.ModelParameters) (st : Js.ModelState),
      (Js.validateCurrentParameters model p = false
        ∨ Js.validateCurrentInitialState model p st = false) →
      Js.runSimulation model p st = (none, JsNum.fin 0))
    ∧ (∀ (model : Js.SIRModel) (p : Js.ModelParameters) (st : Js.ModelState) (r0 : JsNum),
      Js.validateCurrentParameters model p = true →
      Js.validateCurrentInitialState model p st = true →
      model.calculateR0 p = Except.ok r0 → r0.isFinite = false →
      Js.runSimulation model p st = (none, JsNum.fin 0))
    ∧ (∀ (r0 : JsNum) (result : Js.SimulationResult),
      Js.hasNonFiniteValues result = true →
      Js.publishResult r0 result = (none, r0)) := by
refine ⟨?_, ?_, ?_⟩
· intro model p st h
  rcases h with h | h <;> simp [Js.runSimulation, h]
· intro model p st r0 h1 h2 hr hfin
  simp [Js.runSimulation, h1, h2, hr, hfin]
· intro r0 result h
  simp [Js.publishResult, h]

/-- Counterexample to claim C3 as stated: a simulation result containing a
non-finite value is published as `(null, r0)` with the previously set
`r0 = 5`, not `(null, 0)`. -/
theorem claim_C3_counterexample :
    Js.hasNonFiniteValues ⟨[JsNum.fin 0], [JsNum.fin 0], [JsNum.nan], [JsNum.fin 0]⟩ = true
    ∧ Js.publishResult (JsNum.fin 5)
        ⟨[JsNum.fin 0], [JsNum.fin 0], [JsNum.nan], [JsNum.fin 0]⟩
      = (none, JsNum.fin 5)
    ∧ (JsNum.fin 5 : JsNum) ≠ JsNum.fin 0 := by
refine ⟨by decide, by decide, by decide⟩

/-- Witness for C3 (amended): an out-of-range `beta = 20` fails validation
and publishes `(null, 0)`; a model whose R0 is `+Infinity` under passing
validation publishes `(null, 0)`; a non-finite solver result keeps the
computed R0. -/
theorem claim_C3_witness :
    Js.runSimulation Js.basicSIR
        ⟨JsNum.fin 20, JsNum.fin (1 / 10), none, none, none⟩ Js.DEFAULT_INITIAL_STATE
      = (none, JsNum.fin 0)
    ∧ Js.runSimulation ⟨"Stub", [], fun s _ => Except.ok s, fun _ => Except.ok JsNum.posInf⟩
        Js.DEFAULT_PARAMETERS ⟨JsNum.fin 0, JsNum.fin 0, JsNum.fin 0⟩
      = (none, JsNum.fin 0)
    ∧ Js.publishResult (JsNum.fin 3) ⟨[], [JsNum.posInf], [], []⟩ = (none, JsNum.fin 3) :=
⟨claim_C3_amended.1 _ _ _ (Or.inl (by
    simp only [Js.validateCurrentParameters, Js.basicSIR, Js.toRecord,
      Js.validateAllParameters, Js.areAllValid, Js.validateParameter,
      Js.PARAMETER_RANGES, List.lookup, JsNum.isNaN, JsNum.isFinite, JsNum.lt,
      show ("beta" == "beta") = true from by decide,
      show ("gamma" == "beta") = false from by decide,
      show ("gamma" == "gamma") = true from by decide]
    norm_num)),
 claim_C3_amended.2.1 _ _ _ JsNum.posInf rfl
   (by
     simp only [Js.validateCurrentInitialState, Js.validateInitialConditions,
       JsNum.isNaN, JsNum.isFinite, JsNum.add, JsNum.lt, List.contains]
     norm_num)
   rfl rfl,
 claim_C3_amended.2.2 (JsNum.fin 3) ⟨[], [JsNum.posInf], [], []⟩ (by decide)⟩

/-- Claim C6: switching from a variant without `N` to one with `N`
multiplies each initial-state component by the (possibly defaulted) `N`, and
the reverse switch divides by the outgoing variant's `N`; in particular
BasicSIR to NaturalDemographics with `N = 1000` maps `(0.99, 0.01, 0)` to
`(990, 10, 0)`, and switching back recovers the original values exactly (the
arithmetic is exact here); the round trip is exact for every nonzero `N`. -/
theorem claim_C6_model_switch_rescaling :
    (∀ (st : Js.ControllerState) (name : String) (oldM newM : Js.SIRModel),
      Js.MODELS st.selectedModel = some oldM → Js.MODELS name = some newM →
      oldM.requiredParameters.contains "N" = false →
      newM.requiredParameters.contains "N" = true →
      (Js.setSelectedModel name st).initialState =
        ⟨JsNum.mul st.initialState.S (st.parameters.N.getD (JsNum.fin 1000)),
         JsNum.mul st.initialState.I (st.parameters.N.getD (JsNum.fin 1000)),
         JsNum.mul st.initialState.R (st.parameters.N.getD (JsNum.fin 1000))⟩)
    ∧ (∀ (st : Js.ControllerState) (name : String) (oldM newM : Js.SIRModel),
      Js.MODELS st.selectedModel = some oldM → Js.MODELS name = some newM →
      oldM.requiredParameters.contains "N" = true →
      newM.requiredParameters.contains "N" = false →
      (Js.setSelectedModel name st).initialState =
        ⟨JsNum.div st.initialState.S (st.parameters.N.getD (JsNum.fin 1000)),
         JsNum.div st.initialState.I (st.parameters.N.getD (JsNum.fin 1000)),
         JsNum.div st.initialState.R (st.parameters.N.getD (JsNum.fin 1000))⟩)
    ∧ (Js.setSelectedModel "natural-demographics"
        ⟨"basic-sir", Js.DEFAULT_PARAMETERS,
         ⟨JsNum.fin (99 / 100), JsNum.fin (1 / 100), JsNum.fin 0⟩⟩).initialState
      = ⟨JsNum.fin 990, JsNum.fin 10, JsNum.fin 0⟩
    ∧ (Js.setSelectedModel "basic-sir" (Js.setSelectedModel "natural-demographics"
        ⟨"basic-sir", Js.DEFAULT_PARAMETERS,
         ⟨JsNum.fin (99 / 100), JsNum.fin (1 / 100), JsNum.fin 0⟩⟩)).initialState
      = ⟨JsNum.fin (99 / 100), JsNum.fin (1 / 100), JsNum.fin 0⟩
    ∧ (∀ (s i r n : ℚ) (p : Js.ModelParameters), n ≠ 0 → p.N = some (JsNum.fin n) →
      (Js.setSelectedModel "basic-sir" (Js.setSelectedModel "natural-demographics"
          ⟨"basic-sir", p, ⟨JsNum.fin s, JsNum.fin i, JsNum.fin r⟩⟩)).initialState
        = ⟨JsNum.fin s, JsNum.fin i, JsNum.fin r⟩) := by
refine ⟨?_, ?_, ?_, ?_, ?_⟩
· intro st name oldM newM hOld hNew hOldN hNewN
  unfold Js.setSelectedModel
  rw [hNew, hOld]
  simp at hOldN hNewN
  simp [hOldN, hNewN, Js.DEFAULT_PARAMETERS]
· intro st name oldM newM hOld hNew hOldN hNewN
  unfold Js.setSelectedModel
  rw [hNew, hOld]
  simp at hOldN hNewN
  simp [hOldN, hNewN, Js.DEFAULT_PARAMETERS]
· simp only [Js.setSelectedModel, Js.MODELS, Js.basicSIR, Js.naturalDemographics,
    Js.DEFAULT_PARAMETERS, JsNum.mul,
    show ((["beta", "gamma"] : List String).contains "N") = false from by decide,
    show ((["beta", "gamma", "mu", "N"] : List String).contains "N") = true from by decide,
    show ((["beta", "gamma", "mu", "N"] : List String).contains "mu") = true from by decide,
    show ((["beta", "gamma", "mu", "N"] : List String).contains "alpha") = false from by decide,
    show ((["beta", "gamma"] : List String).contains "mu") = false from by decide,
    show ((["beta", "gamma"] : List String).contains "alpha") = false from by decide]
  norm_num
· simp only [Js.setSelectedModel, Js.MODELS, Js.basicSIR, Js.naturalDemographics,
    Js.DEFAULT_PARAMETERS, JsNum.mul, JsNum.div,
    show ((["beta", "gamma"] : List String).contains "N") = false from by decide,
    show ((["beta", "gamma", "mu", "N"] : List String).contains "N") = true from by decide,
    show ((["beta", "gamma", "mu", "N"] : List String).contains "mu") = true from by decide,
    show ((["beta", "gamma", "mu", "N"] : List String).contains "alpha") = false from by decide,
    show ((["beta", "gamma"] : List String).contains "mu") = false from by decide,
    show ((["beta", "gamma"] : List String).contains "alpha") = false from by decide]
  norm_num
· intro s i r n p hn hp
  simp only [Js.setSelectedModel, Js.MODELS, Js.basicSIR, Js.naturalDemographics,
    Js.DEFAULT_PARAMETERS, JsNum.mul, JsNum.div, hp,
    show ((["beta", "gamma"] : List String).contains "N") = false from by decide,
    show ((["beta", "gamma", "mu", "N"] : List String).contains "N") = true from by decide,
    show ((["beta", "gamma", "mu", "N"] : List String).contains "mu") = true from by decide,
    show ((["beta", "gamma", "mu", "N"] : List String).contains "alpha") = false from by decide,
    show ((["beta", "gamma"] : List String).contains "mu") = false from by decide,
    show ((["beta", "gamma"] : List String).contains "alpha") = false from by decide]
  simp [hn, mul_div_cancel_right₀]

/-- Witness for C6: the default BasicSIR state switched to
NaturalDemographics is rescaled by the preserved `N`; the general round trip
holds at `N = 2`. -/
theorem claim_C6_witness :
    (Js.setSelectedModel "natural-demographics"
        ⟨"basic-sir", Js.DEFAULT_PARAMETERS, Js.DEFAULT_INITIAL_STATE⟩).initialState
      = ⟨JsNum.mul Js.DEFAULT_INITIAL_STATE.S (Js.DEFAULT_PARAMETERS.N.getD (JsNum.fin 1000)),
         JsNum.mul Js.DEFAULT_INITIAL_STATE.I (Js.DEFAULT_PARAMETERS.N.getD (JsNum.fin 1000)),
         JsNum.mul Js.DEFAULT_INITIAL_STATE.R (Js.DEFAULT_PARAMETERS.N.getD (JsNum.fin 1000))⟩
    ∧ (Js.setSelectedModel "basic-sir" (Js.setSelectedModel "natural-demographics"
        ⟨"basic-sir", ⟨JsNum.fin 1, JsNum.fin 1, none, none, some (JsNum.fin 2)⟩,
         ⟨JsNum.fin 3, JsNum.fin 4, JsNum.fin 5⟩⟩)).initialState
      = ⟨JsNum.fin 3, JsNum.fin 4, JsNum.fin 5⟩ :=
⟨claim_C6_model_switch_rescaling.1
   ⟨"basic-sir", Js.DEFAULT_PARAMETERS, Js.DEFAULT_INITIAL_STATE⟩
   "natural-demographics" Js.basicSIR Js.naturalDemographics rfl rfl
   (by decide) (by decide),
 claim_C6_model_switch_rescaling.2.2.2.2 3 4 5 2
   ⟨JsNum.fin 1, JsNum.fin 1, none, none, some (JsNum.fin 2)⟩ (by norm_num) rfl⟩
